import Mathlib

/-!
Shallow embedding of the unifiedzillow lead-validation pipeline.

Sources embedded here:
- src/src/services/leadQualityService.js (quality reconciler)
- src/src/services/batchLeadService.js (batch orchestrator search and validity)
- the VisualInspector service (satellite image retrieval, three-provider
  vision fallback chain, JSON schema validation)
- the CacheService wrapper over node-cache (quoted in src/docs/FINAL_SUMMARY.md)

JavaScript dynamic values are embedded as Option-typed fields: a field that is
absent (undefined / null) is modelled as none.  JS truthiness coercions such
as `x || false`, `x || 0`, `x || null` are modelled by the helpers below.
Numbers are modelled as Int (the code only compares and subtracts them).
-/

namespace UnifiedZillow

/-- JS truthiness of a possibly-absent string: undefined, null and the empty
string are falsy, every other string is truthy. -/
def sTruthy : Option String → Bool
  | none => false
  | some s => !(s = "")

/-- JS `x || d` for a possibly-absent string: yields the default when the
field is absent or the empty string. -/
def sOrD (o : Option String) (d : String) : String :=
  match o with
  | none => d
  | some s => if s = "" then d else s

/-- JS `x || null` for a possibly-absent string: the empty string collapses
to null (none). -/
def sOrNull (o : Option String) : Option String :=
  match o with
  | none => none
  | some s => if s = "" then none else some s

/-- JS template interpolation of a possibly-null string value, as in
backtick-quoted `${discrepancy.type}`: null renders as the text "null". -/
def jsShowOptStr : Option String → String
  | none => "null"
  | some s => s

/-- JS `x >= bound` where x may be absent: comparing undefined is false. -/
def intGeD (o : Option Int) (bound : Int) : Bool :=
  match o with
  | some v => decide (bound ≤ v)
  | none => false

/-- Provider-asserted (Zillow) property attributes consulted by the quality
reconciler (leadQualityService.js).  Only the fields the service reads are
modelled; each is optional because the upstream record is free-form JSON. -/
structure ZillowData where
  has_pool : Option Bool := none
  pool_type : Option String := none
  lot_size : Option String := none
  has_backyard : Option Bool := none
  surface_type : Option String := none
deriving Repr, DecidableEq

/-- Normalized vision-model analysis object (the JSON object produced by a
vision provider and validated by parseAnalysisResponse).  Fields are optional
because the raw JSON may omit or mistype any of them. -/
structure VisualAnalysis where
  has_pool : Option Bool := none
  confidence : Option Int := none
  pool_type : Option String := none
  is_empty_backyard : Option Bool := none
  is_underdeveloped : Option Bool := none
  surface_type : Option String := none
  estimated_free_area : Option String := none
  development_potential : Option String := none
deriving Repr, DecidableEq

/-- A dynamically typed JS value stored in a discrepancy detail entry. -/
inductive JVal where
  | jbool (b : Bool)
  | jstr (s : String)
  | jnull
deriving Repr, DecidableEq

/-- One entry of discrepancy.details (leadQualityService.js). -/
structure MismatchDetail where
  field : String
  zillowValue : JVal
  visualValue : JVal
  visualConfidence : Int
deriving Repr, DecidableEq

/-- The discrepancy record built by compareZillowWithVisual
(leadQualityService.js lines 14-20). -/
structure Discrepancy where
  detected : Bool
  type : Option String
  details : List MismatchDetail
  confidenceDiff : Nat
  severity : String
deriving Repr, DecidableEq

/-- The fresh discrepancy object created at the top of
compareZillowWithVisual: nothing detected, severity none. -/
def initialDiscrepancy : Discrepancy :=
  { detected := false, type := none, details := [], confidenceDiff := 0, severity := "none" }

/-- leadQualityService.comparePoolData: pool presence mismatch with
confidence-tiered severity, then pool-type consistency when both sides
assert a pool, then confidenceDiff update (Math.abs(conf - 50)). -/
def comparePoolData (zillowData : ZillowData) (visualAnalysis : VisualAnalysis)
    (discrepancy : Discrepancy) : Discrepancy :=
  let zillowHasPool := zillowData.has_pool.getD false
  let visualHasPool := visualAnalysis.has_pool.getD false
  let visualConfidence := visualAnalysis.confidence.getD 0
  let d1 :=
    if zillowHasPool ≠ visualHasPool then
      let base :=
        { discrepancy with
          detected := true
          type := some "pool_mismatch"
          details := discrepancy.details ++
            [{ field := "has_pool", zillowValue := .jbool zillowHasPool,
               visualValue := .jbool visualHasPool, visualConfidence := visualConfidence }] }
      if 80 ≤ visualConfidence then { base with severity := "major" }
      else if 60 ≤ visualConfidence then { base with severity := "minor" }
      else base
    else discrepancy
  let d2 :=
    if zillowHasPool = true ∧ visualHasPool = true then
      match sOrNull zillowData.pool_type, sOrNull visualAnalysis.pool_type with
      | some zp, some vp =>
        if zp ≠ vp then
          { d1 with
            detected := true
            type := if d1.type = none then some "pool_type_mismatch" else d1.type
            details := d1.details ++
              [{ field := "pool_type", zillowValue := .jstr zp,
                 visualValue := .jstr vp, visualConfidence := visualConfidence }] }
        else d1
      | _, _ => d1
    else d1
  { d2 with confidenceDiff := (visualConfidence - 50).natAbs }

/-- leadQualityService.compareBackyardData: the underdeveloped-with-high-
potential ideal match returns the untouched discrepancy early; otherwise the
high-bar backyard size check (free area low and confidence at least 90,
severity major), then the surface-type check which unconditionally assigns
severity minor, then the confidenceDiff update. -/
def compareBackyardData (zillowData : ZillowData) (visualAnalysis : VisualAnalysis)
    (discrepancy : Discrepancy) : Discrepancy :=
  let visualConfidence := visualAnalysis.confidence.getD 0
  let visualFreeArea := sOrD visualAnalysis.estimated_free_area "low"
  let isUnderdeveloped := visualAnalysis.is_underdeveloped.getD false
  let developmentPotential := sOrD visualAnalysis.development_potential "low"
  if isUnderdeveloped = true ∧ developmentPotential = "high" then discrepancy
  else
    let zillowLotSize := sOrNull zillowData.lot_size
    let zillowHasBackyard := zillowData.has_backyard ≠ some false
    let d1 :=
      if zillowHasBackyard ∧ visualFreeArea = "low" ∧ 90 ≤ visualConfidence then
        { discrepancy with
          detected := true
          type := some "backyard_size_mismatch"
          details := discrepancy.details ++
            [{ field := "estimated_free_area",
               zillowValue := .jstr (if zillowLotSize.isSome then "large" else "unknown"),
               visualValue := .jstr visualFreeArea, visualConfidence := visualConfidence }]
          severity := "major" }
      else discrepancy
    let d2 :=
      if sTruthy zillowData.surface_type = true ∧ sTruthy visualAnalysis.surface_type = true then
        if zillowData.surface_type ≠ visualAnalysis.surface_type then
          { d1 with
            detected := true
            type := if d1.type = none then some "surface_type_mismatch" else d1.type
            details := d1.details ++
              [{ field := "surface_type",
                 zillowValue := .jstr (zillowData.surface_type.getD ""),
                 visualValue := .jstr (visualAnalysis.surface_type.getD ""),
                 visualConfidence := visualConfidence }]
            severity := "minor" }
        else d1
      else d1
    { d2 with confidenceDiff := (visualConfidence - 50).natAbs }

/-- leadQualityService.compareZillowWithVisual: dispatch on lead type after
the null guards; unknown lead types yield the untouched initial record. -/
def compareZillowWithVisual (zillowData : Option ZillowData)
    (visualAnalysis : Option VisualAnalysis) (leadType : String) : Discrepancy :=
  match zillowData, visualAnalysis with
  | some z, some a =>
    if leadType = "PoolLeadGen" then comparePoolData z a initialDiscrepancy
    else if leadType = "BackyardBoost" then compareBackyardData z a initialDiscrepancy
    else initialDiscrepancy
  | _, _ => initialDiscrepancy

/-- The details object assembled inside calculateLeadQuality; the two
lead-type specific confidence fields are present only for their lead type. -/
structure QualityDetails where
  visualConfidence : Int
  discrepancyDetected : Bool
  discrepancyType : Option String
  discrepancySeverity : String
  leadType : String
  poolConfidence : Option Int := none
  backyardConfidence : Option Int := none
deriving Repr, DecidableEq

/-- Return value of calculateLeadQuality.  details is none exactly in the
no-analysis early return, which returns a literal empty object. -/
structure QualityAssessment where
  qualityScore : String
  confidence : Int
  reasoning : List String
  details : Option QualityDetails
deriving Repr, DecidableEq

/-- leadQualityService.calculateLeadQuality, translated branch for branch:
base score from discrepancy state and confidence tiers, then the lead-type
specific blocks including the BackyardBoost medium-to-high upgrade. -/
def calculateLeadQuality (_zillowData : Option ZillowData)
    (visualAnalysis : Option VisualAnalysis) (discrepancy : Discrepancy)
    (leadType : String) : QualityAssessment :=
  match visualAnalysis with
  | none =>
    { qualityScore := "low", confidence := 0,
      reasoning := ["Visual analysis failed or unavailable"], details := none }
  | some va =>
    let visualConfidence := va.confidence.getD 0
    let scoreAndReasons : String × List String :=
      if discrepancy.detected = false then
        if 80 ≤ visualConfidence then
          ("high", ["Visual validation confirms Zillow data with high confidence"])
        else if 60 ≤ visualConfidence then
          ("medium", ["Visual validation confirms Zillow data with moderate confidence"])
        else if 50 ≤ visualConfidence then
          ("medium", ["Visual validation has moderate confidence"])
        else
          ("medium", ["Visual validation has low confidence but no contradictions"])
      else
        if discrepancy.severity = "major" then
          ("low", ["Major discrepancy detected: " ++ jsShowOptStr discrepancy.type,
                   "Lead requires manual review before use"])
        else if discrepancy.severity = "minor" then
          if leadType = "BackyardBoost" then
            ("medium", ["Minor discrepancy detected: " ++ jsShowOptStr discrepancy.type,
                        "Lead still viable for BackyardBoost opportunities"])
          else
            ("medium", ["Minor discrepancy detected: " ++ jsShowOptStr discrepancy.type,
                        "Lead quality reduced due to data inconsistency"])
        else
          ("medium", [])
    let qualityScore := scoreAndReasons.1
    let reasoning := scoreAndReasons.2
    let baseDetails : QualityDetails :=
      { visualConfidence := visualConfidence
        discrepancyDetected := discrepancy.detected
        discrepancyType := discrepancy.type
        discrepancySeverity := discrepancy.severity
        leadType := leadType }
    if leadType = "PoolLeadGen" then
      let reasoning2 := reasoning ++
        (if va.has_pool.getD false = true ∧ 85 ≤ visualConfidence then
          ["Pool presence confirmed with high confidence"] else [])
      { qualityScore := qualityScore, confidence := visualConfidence,
        reasoning := reasoning2,
        details := some { baseDetails with poolConfidence := some (va.confidence.getD 0) } }
    else if leadType = "BackyardBoost" then
      let isUnderdeveloped := va.is_underdeveloped.getD false
      let developmentPotential := sOrD va.development_potential "low"
      let reasoning2 := reasoning ++
        (if isUnderdeveloped = true ∧ developmentPotential = "high" then
          ["Underdeveloped backyard with high development potential"] else [])
      let qualityScore2 :=
        if isUnderdeveloped = true ∧ developmentPotential = "high" ∧ qualityScore = "medium"
        then "high" else qualityScore
      let reasoning3 := reasoning2 ++
        (if va.is_empty_backyard.getD false = true ∧ 75 ≤ visualConfidence then
          ["Empty backyard confirmed - good opportunity for development"] else [])
      { qualityScore := qualityScore2, confidence := visualConfidence,
        reasoning := reasoning3,
        details := some { baseDetails with backyardConfidence := some (va.confidence.getD 0) } }
    else
      { qualityScore := qualityScore, confidence := visualConfidence,
        reasoning := reasoning, details := some baseDetails }

/-- leadQualityService.getRecommendation, verbatim branch structure. -/
def getRecommendation (qualityScore : String) (discrepancy : Discrepancy) : String :=
  if qualityScore = "high" then
    "APPROVE - Lead meets quality standards"
  else if qualityScore = "medium" then
    if discrepancy.detected = true ∧ discrepancy.severity = "major" then
      "REVIEW - Major discrepancies detected, manual review recommended"
    else
      "APPROVE - Lead meets quality standards"
  else
    "REJECT - Lead quality too low, major discrepancies detected"

/-- The validation object built by verify_property_visually and consumed by
generateQualityReport and isValidLead (leadType, satelliteImageUrl,
analysis; the wall-clock timestamp is not modelled). -/
structure VisualValidation where
  leadType : String := ""
  satelliteImageUrl : Option String := none
  analysis : Option VisualAnalysis := none
deriving Repr, DecidableEq

/-- The literal empty object used by generateQualityReport when
visualValidation.analysis is absent. -/
def emptyVisualAnalysis : VisualAnalysis := {}

/-- Evidence bundle embedded in a flag by flagLeadDiscrepancy. -/
structure FlagEvidence where
  satelliteImageUrl : Option String
  zillowData : Option ZillowData
  visualAnalysis : VisualAnalysis
  discrepancyDetails : List MismatchDetail
  visualConfidence : Int
  leadType : Option String
deriving Repr, DecidableEq

/-- The flag record built by leadQualityService.flagLeadDiscrepancy
(the flaggedAt wall-clock timestamp is not modelled). -/
structure Flag where
  leadId : String
  flagType : Option String
  evidence : FlagEvidence
  status : String
  requiresReview : Bool
deriving Repr, DecidableEq

/-- leadQualityService.flagLeadDiscrepancy without the timestamp field. -/
def flagLeadDiscrepancy (leadId : String) (discrepancyType : Option String)
    (evidence : FlagEvidence) : Flag :=
  { leadId := leadId, flagType := discrepancyType, evidence := evidence,
    status := "flagged", requiresReview := true }

/-- The discrepancy sub-object copied into the report by
generateQualityReport (detected, type, severity, details only). -/
structure ReportDiscrepancy where
  detected : Bool
  type : Option String
  severity : String
  details : List MismatchDetail
deriving Repr, DecidableEq

/-- The evidence sub-object of a quality report. -/
structure ReportEvidence where
  satelliteImageUrl : Option String
  visualAnalysis : VisualAnalysis
  zillowData : Option ZillowData
deriving Repr, DecidableEq

/-- The full quality report (assessmentTimestamp not modelled). -/
structure QualityReport where
  leadId : String
  leadType : String
  qualityScore : String
  confidence : Int
  reasoning : List String
  discrepancy : ReportDiscrepancy
  evidence : ReportEvidence
  recommendation : String
  flag : Option Flag
deriving Repr, DecidableEq

/-- leadQualityService.generateQualityReport: compare, score, recommend, and
flag exactly when a detected discrepancy has severity major. -/
def generateQualityReport (leadId : String) (zillowData : Option ZillowData)
    (visualValidation : VisualValidation) (leadType : String) : QualityReport :=
  let visualAnalysis := visualValidation.analysis.getD emptyVisualAnalysis
  let satelliteImageUrl := sOrNull visualValidation.satelliteImageUrl
  let discrepancy := compareZillowWithVisual zillowData (some visualAnalysis) leadType
  let qualityAssessment := calculateLeadQuality zillowData (some visualAnalysis) discrepancy leadType
  { leadId := leadId
    leadType := leadType
    qualityScore := qualityAssessment.qualityScore
    confidence := qualityAssessment.confidence
    reasoning := qualityAssessment.reasoning
    discrepancy :=
      { detected := discrepancy.detected, type := discrepancy.type,
        severity := discrepancy.severity, details := discrepancy.details }
    evidence :=
      { satelliteImageUrl := satelliteImageUrl, visualAnalysis := visualAnalysis,
        zillowData := zillowData }
    recommendation := getRecommendation qualityAssessment.qualityScore discrepancy
    flag :=
      if discrepancy.detected = true ∧ discrepancy.severity = "major" then
        some (flagLeadDiscrepancy leadId discrepancy.type
          { satelliteImageUrl := satelliteImageUrl, zillowData := zillowData,
            visualAnalysis := visualAnalysis, discrepancyDetails := discrepancy.details,
            visualConfidence := visualAnalysis.confidence.getD 0,
            leadType := some leadType })
      else none }

/-!
Vision verifier (VisualInspector service).

External HTTP collaborators are modelled as the outcomes they produce for the
one request the chain sends them: a transport or auth failure carries an
error message; a received response carries the result of extracting and
JSON-decoding the first JSON object of its text (none when no JSON object
could be extracted).  Configuration flags model which API keys are set.
-/

/-- Fixed outcomes of the external collaborators for one verification. -/
structure VisionEnv where
  openaiApiKey : Bool
  groqApiKey : Bool
  geminiApiKey : Bool
  googleMapsApiKey : Bool
  openaiResponse : Except String (Option VisualAnalysis)
  groqResponse : Except String (Option VisualAnalysis)
  geminiResponse : Except String (Option VisualAnalysis)
  imageFetchBase64 : Except String String
  staticMapRequest : Except String Unit

/-- Field check `typeof analysis.confidence === number` plus the 0..100
range check of parseAnalysisResponse. -/
def confidenceFieldOk : Option Int → Bool
  | none => false
  | some c => decide (0 ≤ c) && decide (c ≤ 100)

/-- Membership check against the fixed high / medium / low enumeration used
by parseAnalysisResponse; an absent field fails it. -/
def levelEnumOk : Option String → Bool
  | none => false
  | some s => decide (s = "high") || decide (s = "medium") || decide (s = "low")

/-- VisualInspector.parseAnalysisResponse: validates presence and range of
every required field for the lead type of a decoded response object.  All
thrown messages carry the wrapping prefix added by its own catch block.
Lead types other than the two known ones pass through unvalidated, exactly
as in the source (no else branch). -/
def parseAnalysisResponse (extractedJson : Option VisualAnalysis)
    (leadType : String) : Except String VisualAnalysis :=
  match extractedJson with
  | none => .error "Failed to parse LLM analysis: No JSON found in LLM response"
  | some analysis =>
    if leadType = "PoolLeadGen" then
      if analysis.has_pool = none then
        .error "Failed to parse LLM analysis: Invalid has_pool field in response"
      else if confidenceFieldOk analysis.confidence = false then
        .error "Failed to parse LLM analysis: Invalid confidence score in response"
      else .ok analysis
    else if leadType = "BackyardBoost" then
      if analysis.is_empty_backyard = none then
        .error "Failed to parse LLM analysis: Invalid is_empty_backyard field in response"
      else if analysis.is_underdeveloped = none then
        .error "Failed to parse LLM analysis: Invalid is_underdeveloped field in response"
      else if levelEnumOk analysis.estimated_free_area = false then
        .error "Failed to parse LLM analysis: Invalid estimated_free_area in response"
      else if levelEnumOk analysis.development_potential = false then
        .error "Failed to parse LLM analysis: Invalid development_potential in response"
      else if confidenceFieldOk analysis.confidence = false then
        .error "Failed to parse LLM analysis: Invalid confidence score in response"
      else .ok analysis
    else .ok analysis

/-- VisualInspector.analyzePropertyWithGroq: config, argument and lead-type
guards, then the Groq HTTP call, then response parsing; every failure is
rewrapped by the catch block with the Groq prefix. -/
def analyzePropertyWithGroq (env : VisionEnv) (imageUrl : Option String)
    (leadType : String) : Except String VisualAnalysis :=
  let attempt : Except String VisualAnalysis :=
    if env.groqApiKey = false then .error "GROQ_API_KEY is not configured"
    else if sTruthy imageUrl = false then .error "Image URL is required"
    else if ¬(leadType = "PoolLeadGen" ∨ leadType = "BackyardBoost") then
      .error "Lead type must be either PoolLeadGen or BackyardBoost"
    else
      match env.groqResponse with
      | .error msg => .error msg
      | .ok body => parseAnalysisResponse body leadType
  match attempt with
  | .ok a => .ok a
  | .error msg => .error ("Failed to analyze image with Groq: " ++ msg)

/-- VisualInspector.analyzePropertyWithGemini: like the Groq path but with
the additional base64 image fetch before the provider call. -/
def analyzePropertyWithGemini (env : VisionEnv) (imageUrl : Option String)
    (leadType : String) : Except String VisualAnalysis :=
  let attempt : Except String VisualAnalysis :=
    if env.geminiApiKey = false then .error "GEMINI_API_KEY is not configured"
    else if sTruthy imageUrl = false then .error "Image URL is required"
    else if ¬(leadType = "PoolLeadGen" ∨ leadType = "BackyardBoost") then
      .error "Lead type must be either PoolLeadGen or BackyardBoost"
    else
      match env.imageFetchBase64 with
      | .error msg => .error ("Failed to fetch image: " ++ msg)
      | .ok _ =>
        match env.geminiResponse with
        | .error msg => .error msg
        | .ok body => parseAnalysisResponse body leadType
  match attempt with
  | .ok a => .ok a
  | .error msg => .error ("Failed to analyze image with Gemini: " ++ msg)

/-- The body of the try block of analyzePropertyWithLLM: when the OpenAI key
is missing the Groq path is invoked directly (still inside the try);
otherwise the guards, the OpenAI call and response parsing run.  Any error
escaping this attempt is what the catch block sees. -/
def openAiAttempt (env : VisionEnv) (imageUrl : Option String)
    (leadType : String) : Except String VisualAnalysis :=
  if env.openaiApiKey = false then analyzePropertyWithGroq env imageUrl leadType
  else if sTruthy imageUrl = false then .error "Image URL is required"
  else if ¬(leadType = "PoolLeadGen" ∨ leadType = "BackyardBoost") then
    .error "Lead type must be either PoolLeadGen or BackyardBoost"
  else
    match env.openaiResponse with
    | .error msg => .error msg
    | .ok body => parseAnalysisResponse body leadType

/-- VisualInspector.analyzePropertyWithLLM: the three-tier fallback chain.
The catch block catches EVERY failure of the primary attempt, including a
parse or schema-validation failure, and advances to Groq, then Gemini; only
when all three fail does an error propagate, embedding the primary failure
message. -/
def analyzePropertyWithLLM (env : VisionEnv) (imageUrl : Option String)
    (leadType : String) : Except String VisualAnalysis :=
  match openAiAttempt env imageUrl leadType with
  | .ok a => .ok a
  | .error primaryMsg =>
    match analyzePropertyWithGroq env imageUrl leadType with
    | .ok a => .ok a
    | .error _ =>
      match analyzePropertyWithGemini env imageUrl leadType with
      | .ok a => .ok a
      | .error _ =>
        .error ("Failed to analyze image with all providers (OpenAI, Groq, Gemini): "
          ++ primaryMsg)

/-- The static-map URL assembled by getGoogleMapsStaticImage (fixed zoom 21,
600x600 satellite imagery, red point marker at the coordinates; the API key
query parameter is elided from the model). -/
def staticMapUrl (latitude longitude : Int) : String :=
  "https://maps.googleapis.com/maps/api/staticmap?center=" ++ toString latitude
    ++ "," ++ toString longitude
    ++ "&zoom=21&size=600x600&maptype=satellite&markers=color:red|label:P|"
    ++ toString latitude ++ "," ++ toString longitude

/-- VisualInspector.getGoogleMapsStaticImage.  The source guards only that
the API key is configured and that latitude and longitude are numbers; the
typeof guard always passes in this embedding because the arguments are
integers, and no coordinate RANGE check exists anywhere in the source. -/
def getGoogleMapsStaticImage (env : VisionEnv) (latitude longitude : Int) :
    Except String String :=
  let attempt : Except String String :=
    if env.googleMapsApiKey = false then .error "GOOGLE_MAPS_API_KEY is not configured"
    else
      match env.staticMapRequest with
      | .error msg => .error msg
      | .ok _ => .ok (staticMapUrl latitude longitude)
  match attempt with
  | .ok u => .ok u
  | .error msg => .error ("Failed to fetch satellite image: " ++ msg)

/-- Success payload of verify_property_visually. -/
structure ValidationResult where
  success : Bool
  validation : VisualValidation
deriving Repr, DecidableEq

/-- The success payload verify_property_visually assembles from a lead
type, the satellite image URL and the parsed analysis. -/
def mkValidationResult (leadType : String) (satelliteImageUrl : String)
    (analysis : VisualAnalysis) : ValidationResult :=
  { success := true,
    validation := { leadType := leadType,
                    satelliteImageUrl := some satelliteImageUrl,
                    analysis := some analysis } }

/-- VisualInspector.verify_property_visually: fetch the satellite image,
run the provider fallback chain, assemble the validation record; any failure
is rewrapped by the outer catch. -/
def verify_property_visually (env : VisionEnv) (latitude longitude : Int)
    (leadType : String) : Except String ValidationResult :=
  let attempt : Except String ValidationResult :=
    match getGoogleMapsStaticImage env latitude longitude with
    | .error msg => .error msg
    | .ok satelliteImageUrl =>
      match analyzePropertyWithLLM env (some satelliteImageUrl) leadType with
      | .error msg => .error msg
      | .ok analysis =>
        .ok (mkValidationResult leadType satelliteImageUrl analysis)
  match attempt with
  | .ok v => .ok v
  | .error msg => .error ("Visual property verification failed: " ++ msg)

/-!
Batch lead orchestrator (batchLeadService.js): price-band candidate search
and the per-category validity predicate.
-/

/-- Provider-sourced property candidate; only the fields the batch service
touches are modelled. -/
structure Property where
  id : String := ""
  address : Option String := none
  latitude : Option Int := none
  longitude : Option Int := none
deriving Repr, DecidableEq

/-- One price band of the search partition. -/
structure PriceRange where
  min : Nat
  max : Nat
deriving Repr, DecidableEq

/-- batchLeadService.PRICE_RANGES: the fixed ascending list of price bands,
verbatim from the source. -/
def PRICE_RANGES : List PriceRange :=
  [⟨0, 100000⟩, ⟨100001, 300000⟩, ⟨300001, 500000⟩, ⟨500001, 750000⟩,
   ⟨750001, 1000000⟩, ⟨1000001, 1500000⟩, ⟨1500001, 2000000⟩,
   ⟨2000001, 5000000⟩]

/-- batchLeadService.getBufferSize: always fetch 15 more than requested. -/
def getBufferSize (requestedLeads : Nat) : Nat := requestedLeads + 15

/-- The inner for-of loop of searchAcrossPriceRanges: append properties with
unseen ids, breaking as soon as the accumulated list reaches totalNeeded. -/
def collectUnique (props : List Property) (acc : List Property)
    (seen : List String) (totalNeeded : Nat) : List Property × List String :=
  match props with
  | [] => (acc, seen)
  | p :: rest =>
    if seen.contains p.id then collectUnique rest acc seen totalNeeded
    else
      let acc2 := acc ++ [p]
      let seen2 := seen ++ [p.id]
      if totalNeeded ≤ acc2.length then (acc2, seen2)
      else collectUnique rest acc2 seen2 totalNeeded

/-- The outer loop of searchAcrossPriceRanges over the price bands: break
once totalNeeded is reached; a failed band search is caught and contributes
nothing (the loop continues); a response without a properties list likewise
contributes nothing. -/
def searchRanges (ranges : List PriceRange)
    (searchResults : PriceRange → Except String (Option (List Property)))
    (totalNeeded : Nat) (acc : List Property) (seen : List String) :
    List Property :=
  match ranges with
  | [] => acc
  | r :: rest =>
    if totalNeeded ≤ acc.length then acc
    else
      match searchResults r with
      | .error _ => searchRanges rest searchResults totalNeeded acc seen
      | .ok none => searchRanges rest searchResults totalNeeded acc seen
      | .ok (some props) =>
        let step := collectUnique props acc seen totalNeeded
        searchRanges rest searchResults totalNeeded step.1 step.2

/-- batchLeadService.searchAcrossPriceRanges, with the Zillow search client
abstracted to the per-band outcome it returns (error, no properties list,
or a list of candidates). -/
def searchAcrossPriceRanges
    (searchResults : PriceRange → Except String (Option (List Property)))
    (totalNeeded : Nat) : List Property :=
  searchRanges PRICE_RANGES searchResults totalNeeded [] []

/-- batchLeadService.isValidLead: a total boolean predicate.  The null
guards of the source are the none cases here; the confidence comparison is
false when the field is absent, as comparing undefined is in JS. -/
def isValidLead (property : Option Property) (leadType : String)
    (visualValidation : Option VisualValidation) : Bool :=
  match property, visualValidation with
  | some _, some vv =>
    match vv.analysis with
    | none => false
    | some analysis =>
      if leadType = "PoolLeadGen" then
        decide (analysis.has_pool = some true) && intGeD analysis.confidence 60
      else if leadType = "BackyardBoost" then
        decide (analysis.is_empty_backyard = some false)
          && intGeD analysis.confidence 60
          && decide (analysis.surface_type ≠ some "concrete")
      else false
  | _, _ => false

/-!
Coordinate cache (CacheService over node-cache, quoted in
src/docs/FINAL_SUMMARY.md).  The node-cache store is modelled at its
interface: an association list from keys to a value with an expiry instant
(0 meaning no expiry, as node-cache encodes an unlimited ttl), and a
current-time parameter standing for the wall clock.  An entry is expired
exactly when its expiry is nonzero and lies strictly in the past.
-/

/-- One node-cache entry: the stored value and its expiry instant. -/
structure CacheEntry (α : Type) where
  value : α
  expiry : Nat

/-- The cache state: the key-to-entry store plus the configured default ttl
(config.cache.ttl passed as stdTTL). -/
structure CacheState (α : Type) where
  data : List (String × CacheEntry α)
  stdTTL : Nat

/-- CacheService.set: store under the custom ttl when one is given, the
default otherwise; returns true on success (the only failure path in the
source is a serialization throw, which cannot occur for the values of this
model). -/
def cacheSet {α : Type} (st : CacheState α) (key : String) (value : α)
    (ttl : Option Nat) (now : Nat) : Bool × CacheState α :=
  let effectiveTtl := ttl.getD st.stdTTL
  let expiry := if effectiveTtl = 0 then 0 else now + effectiveTtl
  (true,
   { st with data := (key, { value := value, expiry := expiry }) ::
       st.data.filter (fun e => !(e.1 = key : Bool)) })

/-- CacheService.get: the stored value when present and unexpired,
otherwise none (node-cache treats an expired entry as absent). -/
def cacheGet {α : Type} (st : CacheState α) (key : String) (now : Nat) :
    Option α :=
  match st.data.find? (fun e => e.1 = key) with
  | none => none
  | some e => if e.2.expiry ≠ 0 ∧ e.2.expiry < now then none else some e.2.value

/-- Modelled from the spec (for the C5 refinement comparison): the claimed
recommendation mapping as a pure function of the quality score and the
discrepancy severity — high maps to APPROVE, medium maps to APPROVE unless
the severity is major (then REVIEW), low maps to REJECT. -/
def recommendationSpec (qualityScore severity : String) : String :=
  if qualityScore = "high" then
    "APPROVE - Lead meets quality standards"
  else if qualityScore = "medium" then
    if severity = "major" then
      "REVIEW - Major discrepancies detected, manual review recommended"
    else
      "APPROVE - Lead meets quality standards"
  else
    "REJECT - Lead quality too low, major discrepancies detected"

/-!
Concrete example inputs used by counterexamples and witnesses.
-/

/-- Provider record for the C2 counterexample: a backyard is asserted, with
a recorded lot size and a grass surface. -/
def c2ZillowEx : ZillowData :=
  { has_backyard := some true, lot_size := some "5000", surface_type := some "grass" }

/-- Vision analysis for the C2 counterexample: free area low at confidence
95 (which triggers the major backyard_size_mismatch), surface dirt (which
then triggers the surface-type check). -/
def c2VisualEx : VisualAnalysis :=
  { confidence := some 95, estimated_free_area := some "low",
    surface_type := some "dirt" }

/-- Vision analysis for the C6 witness: scenario C of the spec. -/
def c6VisualEx : VisualAnalysis :=
  { is_underdeveloped := some true, development_potential := some "high",
    confidence := some 70 }

/-- Validation record wrapping the C6 witness analysis. -/
def c6ValidationEx : VisualValidation := { analysis := some c6VisualEx }

/-- Provider record for the C5 witness: no pool asserted. -/
def c5ZillowEx : ZillowData := { has_pool := some false }

/-- Validation record for the C5 witness: vision asserts a pool at
confidence 85, creating a major pool_mismatch against c5ZillowEx. -/
def c5ValidationEx : VisualValidation :=
  { analysis := some { has_pool := some true, confidence := some 85 } }

/-- Decoded response for the C1 counterexample: the primary provider DID
respond (a JSON object was received and decoded) but the required has_pool
boolean is missing, so schema validation fails. -/
def c1BadAnalysis : VisualAnalysis := { confidence := some 90 }

/-- Schema-valid PoolLeadGen analysis returned by the secondary (Groq)
provider in the C1 counterexample. -/
def c1GoodAnalysis : VisualAnalysis :=
  { has_pool := some true, confidence := some 85 }

/-- Environment for the C1 counterexample: every provider configured, the
primary returning a schema-invalid response, the secondary a valid one. -/
def c1Env : VisionEnv :=
  { openaiApiKey := true, groqApiKey := true, geminiApiKey := true,
    googleMapsApiKey := true,
    openaiResponse := .ok (some c1BadAnalysis),
    groqResponse := .ok (some c1GoodAnalysis),
    geminiResponse := .error "unreachable",
    imageFetchBase64 := .ok "base64", staticMapRequest := .ok () }

/-- Valid PoolLeadGen analysis for the C7 counterexample environment. -/
def c7Analysis : VisualAnalysis :=
  { has_pool := some true, confidence := some 95 }

/-- Environment for the C7 counterexample: imagery and the primary provider
configured and succeeding. -/
def c7Env : VisionEnv :=
  { openaiApiKey := true, groqApiKey := false, geminiApiKey := false,
    googleMapsApiKey := true,
    openaiResponse := .ok (some c7Analysis),
    groqResponse := .error "not configured",
    geminiResponse := .error "not configured",
    imageFetchBase64 := .ok "base64", staticMapRequest := .ok () }

/-- A one-candidate search result whose id records the band minimum it came
from (used to observe which bands were actually queried). -/
def bandProbe (r : PriceRange) : Property := { id := toString r.min }

/-- Search stub for the C3 counterexample: every band responds with exactly
one distinct property. -/
def c3Search (r : PriceRange) : Except String (Option (List Property)) :=
  .ok (some [bandProbe r])

/-!
Theorems.
-/

/-- Helper: on a pool-presence mismatch, comparePoolData (as invoked by
compareZillowWithVisual, i.e. on the fresh discrepancy) yields exactly the
pool_mismatch record with confidence-tiered severity; the pool-type block
cannot fire because the two presence booleans differ. -/
theorem comparePool_mismatch_eq (z : ZillowData) (a : VisualAnalysis)
    (h : z.has_pool.getD false ≠ a.has_pool.getD false) :
    compareZillowWithVisual (some z) (some a) "PoolLeadGen" =
      { detected := true, type := some "pool_mismatch",
        details := [{ field := "has_pool",
                      zillowValue := .jbool (z.has_pool.getD false),
                      visualValue := .jbool (a.has_pool.getD false),
                      visualConfidence := a.confidence.getD 0 }],
        confidenceDiff := (a.confidence.getD 0 - 50).natAbs,
        severity := if 80 ≤ a.confidence.getD 0 then "major"
          else if 60 ≤ a.confidence.getD 0 then "minor" else "none" } := by
  have hz : ¬(z.has_pool.getD false = true ∧ a.has_pool.getD false = true) := by
    rintro ⟨h1, h2⟩
    exact h (h1.trans h2.symm)
  by_cases h80 : 80 ≤ a.confidence.getD 0
  · simp [compareZillowWithVisual, comparePoolData, initialDiscrepancy, h, hz, h80]
  · by_cases h60 : 60 ≤ a.confidence.getD 0
    · simp [compareZillowWithVisual, comparePoolData, initialDiscrepancy, h, hz, h80, h60]
    · simp [compareZillowWithVisual, comparePoolData, initialDiscrepancy, h, hz, h80, h60]

/-- Helper: the three severity tiers of the pool-presence rule are exact,
with inclusive lower bounds and neither gap nor overlap. -/
theorem tierSeverity_spec (c : Int) :
    ((if 80 ≤ c then "major" else if 60 ≤ c then "minor" else "none") = "major"
       ↔ 80 ≤ c) ∧
    ((if 80 ≤ c then "major" else if 60 ≤ c then "minor" else "none") = "minor"
       ↔ (60 ≤ c ∧ c < 80)) ∧
    ((if 80 ≤ c then "major" else if 60 ≤ c then "minor" else "none") = "none"
       ↔ c < 60) := by
  have e1 : ("major" : String) ≠ "minor" := by decide
  have e2 : ("major" : String) ≠ "none" := by decide
  have e3 : ("minor" : String) ≠ "major" := by decide
  have e4 : ("minor" : String) ≠ "none" := by decide
  have e5 : ("none" : String) ≠ "major" := by decide
  have e6 : ("none" : String) ≠ "minor" := by decide
  split_ifs with h1 h2 <;> simp [e1, e2, e3, e4, e5, e6] <;> omega

/-- C4: for a PoolLeadGen evaluation in which the provider-asserted and
vision-asserted pool presence booleans differ, the discrepancy is detected
with type pool_mismatch, and its severity is major exactly when the vision
confidence is at least 80, minor exactly when it is at least 60 and below
80, and none exactly when it is below 60: the bounds are inclusive lower
bounds with no gap or overlap between the tiers. -/
theorem c4_pool_mismatch_tiers (z : ZillowData) (a : VisualAnalysis)
    (h : z.has_pool.getD false ≠ a.has_pool.getD false) :
    (compareZillowWithVisual (some z) (some a) "PoolLeadGen").detected = true ∧
    (compareZillowWithVisual (some z) (some a) "PoolLeadGen").type = some "pool_mismatch" ∧
    ((compareZillowWithVisual (some z) (some a) "PoolLeadGen").severity = "major"
       ↔ 80 ≤ a.confidence.getD 0) ∧
    ((compareZillowWithVisual (some z) (some a) "PoolLeadGen").severity = "minor"
       ↔ (60 ≤ a.confidence.getD 0 ∧ a.confidence.getD 0 < 80)) ∧
    ((compareZillowWithVisual (some z) (some a) "PoolLeadGen").severity = "none"
       ↔ a.confidence.getD 0 < 60) := by
  rw [comparePool_mismatch_eq z a h]
  exact ⟨rfl, rfl, (tierSeverity_spec (a.confidence.getD 0)).1,
    (tierSeverity_spec (a.confidence.getD 0)).2.1,
    (tierSeverity_spec (a.confidence.getD 0)).2.2⟩

/-- C4 witness: concrete mismatch (provider no pool, vision pool at
confidence 85) instantiating the theorem; severity is major. -/
theorem c4_witness :
    ({ has_pool := some false } : ZillowData).has_pool.getD false ≠
      ({ has_pool := some true, confidence := some 85 } : VisualAnalysis).has_pool.getD false ∧
    (compareZillowWithVisual (some { has_pool := some false })
      (some { has_pool := some true, confidence := some 85 }) "PoolLeadGen").severity
      = "major" :=
  ⟨by decide,
   (c4_pool_mismatch_tiers { has_pool := some false }
      { has_pool := some true, confidence := some 85 } (by decide)).2.2.1.mpr (by decide)⟩

/-- C9: a provider record whose has_pool attribute is absent or false is
treated as asserting that no pool exists: whenever the vision analysis
asserts has_pool=true against such a record, a pool_mismatch discrepancy is
detected with the confidence-tiered severity. -/
theorem c9_absent_pool_asserts_no_pool (z : ZillowData) (a : VisualAnalysis)
    (hz : z.has_pool.getD false = false) (ha : a.has_pool = some true) :
    (compareZillowWithVisual (some z) (some a) "PoolLeadGen").detected = true ∧
    (compareZillowWithVisual (some z) (some a) "PoolLeadGen").type = some "pool_mismatch" ∧
    (compareZillowWithVisual (some z) (some a) "PoolLeadGen").severity =
      (if 80 ≤ a.confidence.getD 0 then "major"
       else if 60 ≤ a.confidence.getD 0 then "minor" else "none") := by
  have h : z.has_pool.getD false ≠ a.has_pool.getD false := by
    rw [hz, ha]
    decide
  rw [comparePool_mismatch_eq z a h]
  exact ⟨rfl, rfl, rfl⟩

/-- C9 witness: provider record with no has_pool attribute at all, vision
asserting a pool at confidence 70; detected pool_mismatch, severity tier is
minor. -/
theorem c9_witness :
    (({} : ZillowData).has_pool.getD false = false) ∧
    (compareZillowWithVisual (some {})
      (some { has_pool := some true, confidence := some 70 }) "PoolLeadGen").detected = true :=
  ⟨by decide,
   (c9_absent_pool_asserts_no_pool {} { has_pool := some true, confidence := some 70 }
     (by decide) rfl).1⟩

/-- C2 counterexample: on this evaluation the backyard-size branch fires
first (the discrepancy type is backyard_size_mismatch and both detail
entries are recorded), establishing severity major, yet the final severity
is minor: the surface-type check overwrote the already-established major
severity, so recording a surface mismatch DOES lower an established
severity, contrary to the claim. -/
theorem c2_surface_overwrites_major_cex :
    (compareZillowWithVisual (some c2ZillowEx) (some c2VisualEx) "BackyardBoost").type
        = some "backyard_size_mismatch" ∧
    (compareZillowWithVisual (some c2ZillowEx) (some c2VisualEx) "BackyardBoost").details.map
        (fun d => d.field) = ["estimated_free_area", "surface_type"] ∧
    (compareZillowWithVisual (some c2ZillowEx) (some c2VisualEx) "BackyardBoost").severity
        = "minor" := by
  decide

/-- C2 as amended: whenever the ideal-match early return does not apply and
the provider and vision surface types are both present, nonempty and
different, the surface-type check records the mismatch and assigns severity
minor UNCONDITIONALLY, overwriting any major severity established by the
backyard-size check earlier in the same evaluation. -/
theorem c2_surface_sets_minor_unconditionally (z : ZillowData) (a : VisualAnalysis)
    (zs vs : String)
    (hIdeal : ¬(a.is_underdeveloped.getD false = true ∧
      sOrD a.development_potential "low" = "high"))
    (hzs : z.surface_type = some zs) (hvs : a.surface_type = some vs)
    (hzs' : zs ≠ "") (hvs' : vs ≠ "") (hne : zs ≠ vs) :
    (compareZillowWithVisual (some z) (some a) "BackyardBoost").detected = true ∧
    (compareZillowWithVisual (some z) (some a) "BackyardBoost").severity = "minor" := by
  have hPool : ("BackyardBoost" : String) ≠ "PoolLeadGen" := by decide
  have hTr : sTruthy z.surface_type = true ∧ sTruthy a.surface_type = true := by
    rw [hzs, hvs]
    simp [sTruthy, hzs', hvs']
  have hst : z.surface_type ≠ a.surface_type := by
    rw [hzs, hvs]
    simp [hne]
  by_cases hMaj : (z.has_backyard ≠ some false) ∧
      sOrD a.estimated_free_area "low" = "low" ∧ 90 ≤ a.confidence.getD 0
  · simp [compareZillowWithVisual, compareBackyardData, initialDiscrepancy, hPool,
      hIdeal, hMaj, hTr, hst]
  · simp [compareZillowWithVisual, compareBackyardData, initialDiscrepancy, hPool,
      hIdeal, hMaj, hTr, hst]

/-- C2 witness: the amended theorem instantiated at the counterexample
inputs. -/
theorem c2_witness :
    (compareZillowWithVisual (some c2ZillowEx) (some c2VisualEx) "BackyardBoost").detected
      = true :=
  (c2_surface_sets_minor_unconditionally c2ZillowEx c2VisualEx "grass" "dirt"
    (by decide) rfl rfl (by decide) (by decide) (by decide)).1

/-- Helper: when vision reports the yard underdeveloped with high
development potential, compareZillowWithVisual for BackyardBoost returns
the untouched initial discrepancy, whatever the provider record (including
a missing one) and every other field. -/
theorem compareBackyard_ideal_eq (z : Option ZillowData) (a : VisualAnalysis)
    (hu : a.is_underdeveloped.getD false = true)
    (hd : sOrD a.development_potential "low" = "high") :
    compareZillowWithVisual z (some a) "BackyardBoost" = initialDiscrepancy := by
  have hPool : ("BackyardBoost" : String) ≠ "PoolLeadGen" := by decide
  cases z with
  | none => rfl
  | some z0 => simp [compareZillowWithVisual, compareBackyardData, hPool, hu, hd]

/-- Helper: on an undetected discrepancy, the BackyardBoost quality score is
high whenever the ideal-match condition holds: directly at confidence 80 and
above, via the medium-to-high upgrade below it. -/
theorem calcQuality_ideal_backyard (z : Option ZillowData) (a : VisualAnalysis)
    (hu : a.is_underdeveloped.getD false = true)
    (hd : sOrD a.development_potential "low" = "high") :
    (calculateLeadQuality z (some a) initialDiscrepancy "BackyardBoost").qualityScore
      = "high" := by
  have hPool : ("BackyardBoost" : String) ≠ "PoolLeadGen" := by decide
  have hs1 : ("high" : String) ≠ "medium" := by decide
  by_cases h80 : 80 ≤ a.confidence.getD 0
  · simp [calculateLeadQuality, initialDiscrepancy, hPool, hu, hd, h80, hs1]
  · by_cases h60 : 60 ≤ a.confidence.getD 0
    · simp [calculateLeadQuality, initialDiscrepancy, hPool, hu, hd, h80, h60]
    · by_cases h50 : 50 ≤ a.confidence.getD 0
      · simp [calculateLeadQuality, initialDiscrepancy, hPool, hu, hd, h80, h60, h50]
      · simp [calculateLeadQuality, initialDiscrepancy, hPool, hu, hd, h80, h60, h50]

/-- C6: for every BackyardBoost evaluation whose vision analysis reports
is_underdeveloped=true and development_potential=high, no discrepancy is
detected regardless of every other field of either record, and the quality
score is high (directly at confidence 80 and above, upgraded from medium
below). -/
theorem c6_ideal_backyard (leadId : String) (z : Option ZillowData)
    (vv : VisualValidation) (a : VisualAnalysis)
    (hvv : vv.analysis = some a)
    (h1 : a.is_underdeveloped = some true)
    (h2 : a.development_potential = some "high") :
    (generateQualityReport leadId z vv "BackyardBoost").discrepancy.detected = false ∧
    (generateQualityReport leadId z vv "BackyardBoost").qualityScore = "high" := by
  have hu : a.is_underdeveloped.getD false = true := by rw [h1]; rfl
  have hd : sOrD a.development_potential "low" = "high" := by
    rw [h2]
    decide
  have hcomp := compareBackyard_ideal_eq z a hu hd
  have hcalc := calcQuality_ideal_backyard z a hu hd
  constructor
  · simp [generateQualityReport, hvv, hcomp, initialDiscrepancy]
  · simp [generateQualityReport, hvv, hcomp, hcalc]

/-- C6 witness: scenario C of the spec (is_underdeveloped=true,
development_potential=high, confidence=70) yields no discrepancy and a high
quality score. -/
theorem c6_witness :
    (generateQualityReport "L1" (some {}) c6ValidationEx "BackyardBoost").discrepancy.detected
        = false ∧
    (generateQualityReport "L1" (some {}) c6ValidationEx "BackyardBoost").qualityScore
        = "high" :=
  c6_ideal_backyard "L1" (some {}) c6ValidationEx c6VisualEx rfl rfl rfl

/-- Helper: without a pool-presence mismatch, comparePoolData never raises
the severity above none — the pool-type block records a detail but does not
touch severity. -/
theorem comparePool_sev_none_of_no_mismatch (z : ZillowData) (a : VisualAnalysis)
    (hm : ¬(z.has_pool.getD false ≠ a.has_pool.getD false)) :
    (comparePoolData z a initialDiscrepancy).severity = "none" := by
  by_cases hb : z.has_pool.getD false = true ∧ a.has_pool.getD false = true
  · cases hzp : sOrNull z.pool_type with
    | none => simp [comparePoolData, initialDiscrepancy, hm, hb, hzp]
    | some zp =>
      cases hvp : sOrNull a.pool_type with
      | none => simp [comparePoolData, initialDiscrepancy, hm, hb, hzp, hvp]
      | some vp =>
        by_cases hne : zp ≠ vp
        · simp [comparePoolData, initialDiscrepancy, hm, hb, hzp, hvp, hne]
        · simp [comparePoolData, initialDiscrepancy, hm, hb, hzp, hvp, hne]
  · simp [comparePoolData, initialDiscrepancy, hm, hb]

/-- Helper: a BackyardBoost comparison result with severity major has
detected=true (the only branch producing major also sets detected; the
surface branch overwrites major with minor but also sets detected). -/
theorem compareBackyard_sev_detected (z : ZillowData) (a : VisualAnalysis) :
    (compareBackyardData z a initialDiscrepancy).severity = "major" →
    (compareBackyardData z a initialDiscrepancy).detected = true := by
  have sNM : ("none" : String) ≠ "major" := by decide
  have sMm : ("minor" : String) ≠ "major" := by decide
  by_cases hI : a.is_underdeveloped.getD false = true ∧
      sOrD a.development_potential "low" = "high"
  · simp [compareBackyardData, initialDiscrepancy, hI, sNM]
  · by_cases hS : (z.has_backyard ≠ some false) ∧
        sOrD a.estimated_free_area "low" = "low" ∧ 90 ≤ a.confidence.getD 0
    · by_cases h1 : sTruthy z.surface_type = true ∧ sTruthy a.surface_type = true
      · by_cases h2 : z.surface_type ≠ a.surface_type
        · simp [compareBackyardData, initialDiscrepancy, hI, hS, h1, h2, sMm]
        · simp [compareBackyardData, initialDiscrepancy, hI, hS, h1, h2]
      · simp [compareBackyardData, initialDiscrepancy, hI, hS, h1]
    · by_cases h1 : sTruthy z.surface_type = true ∧ sTruthy a.surface_type = true
      · by_cases h2 : z.surface_type ≠ a.surface_type
        · simp [compareBackyardData, initialDiscrepancy, hI, hS, h1, h2, sMm]
        · simp [compareBackyardData, initialDiscrepancy, hI, hS, h1, h2, sNM]
      · simp [compareBackyardData, initialDiscrepancy, hI, hS, h1, sNM]

/-- Helper: every discrepancy produced by compareZillowWithVisual satisfies
the invariant that severity major entails detected. -/
theorem compare_severity_major_detected (z : Option ZillowData)
    (a : Option VisualAnalysis) (lt : String) :
    (compareZillowWithVisual z a lt).severity = "major" →
    (compareZillowWithVisual z a lt).detected = true := by
  cases z with
  | none =>
    intro h
    rw [show compareZillowWithVisual none a lt = initialDiscrepancy from rfl] at h
    exact absurd h (by decide)
  | some z0 =>
    cases a with
    | none =>
      intro h
      rw [show compareZillowWithVisual (some z0) none lt = initialDiscrepancy from rfl] at h
      exact absurd h (by decide)
    | some a0 =>
      by_cases hlt1 : lt = "PoolLeadGen"
      · subst hlt1
        have hcv : compareZillowWithVisual (some z0) (some a0) "PoolLeadGen"
            = comparePoolData z0 a0 initialDiscrepancy := rfl
        rw [hcv]
        by_cases hm : z0.has_pool.getD false ≠ a0.has_pool.getD false
        · intro _
          have he := comparePool_mismatch_eq z0 a0 hm
          rw [hcv] at he
          rw [he]
        · intro h
          have hn := comparePool_sev_none_of_no_mismatch z0 a0 hm
          rw [hn] at h
          exact absurd h (by decide)
      · by_cases hlt2 : lt = "BackyardBoost"
        · subst hlt2
          have hcv : compareZillowWithVisual (some z0) (some a0) "BackyardBoost"
              = compareBackyardData z0 a0 initialDiscrepancy := by
            simp [compareZillowWithVisual, hlt1]
          rw [hcv]
          exact compareBackyard_sev_detected z0 a0
        · intro h
          have hcv : compareZillowWithVisual (some z0) (some a0) lt
              = initialDiscrepancy := by
            simp [compareZillowWithVisual, hlt1, hlt2]
          rw [hcv] at h
          exact absurd h (by decide)

/-- Helper: a detected major discrepancy forces the quality score to low for
every lead typescoring path (the BackyardBoost upgrade only fires from
medium). -/
theorem calcQuality_major_low (z : Option ZillowData) (a : VisualAnalysis)
    (d : Discrepancy) (lt : String)
    (hd : d.detected = true) (hs : d.severity = "major") :
    (calculateLeadQuality z (some a) d lt).qualityScore = "low" := by
  have hlm : ("low" : String) ≠ "medium" := by decide
  by_cases h1 : lt = "PoolLeadGen"
  · simp [calculateLeadQuality, hd, hs, h1]
  · by_cases h2 : lt = "BackyardBoost"
    · simp [calculateLeadQuality, hd, hs, h1, h2, hlm]
    · simp [calculateLeadQuality, hd, hs, h1, h2]

/-- Helper: getRecommendation agrees with the pure mapping
recommendationSpec on every discrepancy satisfying the (always reachable)
invariant that severity major entails detected. -/
theorem getRecommendation_eq_spec (s : String) (d : Discrepancy)
    (h : d.severity = "major" → d.detected = true) :
    getRecommendation s d = recommendationSpec s d.severity := by
  by_cases h1 : s = "high"
  · simp [getRecommendation, recommendationSpec, h1]
  · by_cases h2 : s = "medium"
    · by_cases h3 : d.severity = "major"
      · simp [getRecommendation, recommendationSpec, h1, h2, h3, h h3]
      · simp [getRecommendation, recommendationSpec, h1, h2, h3]
    · simp [getRecommendation, recommendationSpec, h1, h2]

/-- C5: for every quality report produced by the reconciler, a discrepancy
severity of major entails a recommendation of REVIEW or REJECT (never
APPROVE), and in general the recommendation equals the pure mapping of
(qualityScore, discrepancy.severity) given by recommendationSpec. -/
theorem c5_recommendation_mapping (leadId : String) (z : Option ZillowData)
    (vv : VisualValidation) (lt : String) :
    ((generateQualityReport leadId z vv lt).discrepancy.severity = "major" →
      (generateQualityReport leadId z vv lt).recommendation
          = "REVIEW - Major discrepancies detected, manual review recommended" ∨
      (generateQualityReport leadId z vv lt).recommendation
          = "REJECT - Lead quality too low, major discrepancies detected") ∧
    (generateQualityReport leadId z vv lt).recommendation =
      recommendationSpec (generateQualityReport leadId z vv lt).qualityScore
        (generateQualityReport leadId z vv lt).discrepancy.severity := by
  have hlh : ("low" : String) ≠ "high" := by decide
  have hlm : ("low" : String) ≠ "medium" := by decide
  have hmd := compare_severity_major_detected z
    (some (vv.analysis.getD emptyVisualAnalysis)) lt
  constructor
  · intro hs
    have hs' : (compareZillowWithVisual z
        (some (vv.analysis.getD emptyVisualAnalysis)) lt).severity = "major" := by
      simpa [generateQualityReport] using hs
    have hd := hmd hs'
    have hlow := calcQuality_major_low z (vv.analysis.getD emptyVisualAnalysis)
      (compareZillowWithVisual z (some (vv.analysis.getD emptyVisualAnalysis)) lt)
      lt hd hs'
    right
    simp [generateQualityReport, getRecommendation, hlow, hlh, hlm]
  · have hrec := getRecommendation_eq_spec
      ((calculateLeadQuality z (some (vv.analysis.getD emptyVisualAnalysis))
        (compareZillowWithVisual z (some (vv.analysis.getD emptyVisualAnalysis)) lt)
        lt).qualityScore)
      (compareZillowWithVisual z (some (vv.analysis.getD emptyVisualAnalysis)) lt)
      hmd
    simpa [generateQualityReport] using hrec

/-- C5 witness: a concrete report with a major pool mismatch; the
implication of the theorem yields the REVIEW-or-REJECT disjunction at this
input. -/
theorem c5_witness :
    (generateQualityReport "L2" (some c5ZillowEx) c5ValidationEx "PoolLeadGen").recommendation
        = "REVIEW - Major discrepancies detected, manual review recommended" ∨
    (generateQualityReport "L2" (some c5ZillowEx) c5ValidationEx "PoolLeadGen").recommendation
        = "REJECT - Lead quality too low, major discrepancies detected" :=
  (c5_recommendation_mapping "L2" (some c5ZillowEx) c5ValidationEx "PoolLeadGen").1
    (by decide)

/-- C1 counterexample: the primary provider returns a received but
schema-invalid response (first conjunct: parsing it is a MalformedAnalysis
failure), yet the analysis chain returns the SECONDARY provider's analysis
(second conjunct): the fallback chain advanced past the malformed primary
response instead of propagating the error immediately, contrary to the
claim. -/
theorem c1_malformed_not_immediate_cex :
    (parseAnalysisResponse (some c1BadAnalysis) "PoolLeadGen"
      = .error "Failed to parse LLM analysis: Invalid has_pool field in response") ∧
    (analyzePropertyWithLLM c1Env (some "https://img") "PoolLeadGen"
      = .ok c1GoodAnalysis) ∧
    c1GoodAnalysis ≠ c1BadAnalysis :=
  ⟨rfl, rfl, by decide⟩

/-- C1 as amended: when the primary provider's response is received but
fails schema validation, the resulting parse failure is treated like any
other failure of the primary attempt: the chain advances to the secondary
(Groq) provider — returning its analysis when it succeeds — and then to the
tertiary (Gemini); only when all three attempts fail does an error
propagate, embedding the primary failure message. -/
theorem c1_malformed_advances_fallback (env : VisionEnv)
    (imageUrl : Option String) (leadType : String)
    (body : Option VisualAnalysis) (e : String)
    (hkey : env.openaiApiKey = true)
    (hresp : env.openaiResponse = .ok body)
    (hurl : sTruthy imageUrl = true)
    (hlt : leadType = "PoolLeadGen" ∨ leadType = "BackyardBoost")
    (hparse : parseAnalysisResponse body leadType = .error e) :
    (∀ a, analyzePropertyWithGroq env imageUrl leadType = .ok a →
       analyzePropertyWithLLM env imageUrl leadType = .ok a) ∧
    (∀ e1 e2, analyzePropertyWithGroq env imageUrl leadType = .error e1 →
       analyzePropertyWithGemini env imageUrl leadType = .error e2 →
       analyzePropertyWithLLM env imageUrl leadType =
         .error ("Failed to analyze image with all providers (OpenAI, Groq, Gemini): "
           ++ e)) := by
  have hprim : openAiAttempt env imageUrl leadType = .error e := by
    simp [openAiAttempt, hkey, hurl, hresp, hparse, not_not_intro hlt]
  constructor
  · intro a hg
    simp [analyzePropertyWithLLM, hprim, hg]
  · intro e1 e2 hg hgem
    simp [analyzePropertyWithLLM, hprim, hg, hgem]

/-- C1 witness: the amended theorem instantiated at the counterexample
environment; the chain yields the secondary provider's analysis. -/
theorem c1_witness :
    analyzePropertyWithLLM c1Env (some "https://img") "PoolLeadGen"
      = .ok c1GoodAnalysis :=
  (c1_malformed_advances_fallback c1Env (some "https://img") "PoolLeadGen"
      (some c1BadAnalysis)
      "Failed to parse LLM analysis: Invalid has_pool field in response"
      rfl rfl rfl (Or.inl rfl) rfl).1 c1GoodAnalysis rfl

/-- Helper: the static-map URL is a nonempty string, so it passes the JS
truthiness guard of the analysis functions. -/
theorem staticMapUrl_ne_empty (lat lon : Int) : staticMapUrl lat lon ≠ "" := by
  intro h
  have hlen := congrArg String.length h
  rw [staticMapUrl] at hlen
  simp only [String.length_append, String.length_empty] at hlen
  have hpos :
      0 < ("https://maps.googleapis.com/maps/api/staticmap?center=" : String).length := by
    decide
  omega

/-- C7 counterexample: latitude 999 lies outside [-90, 90], yet the verify
operation does not fail with an invalid-input error — it runs to completion
and succeeds, because the source performs no coordinate range validation at
all. -/
theorem c7_no_range_check_cex :
    ((90 : Int) < 999) ∧
    (verify_property_visually c7Env 999 0 "PoolLeadGen"
      = .ok (mkValidationResult "PoolLeadGen" (staticMapUrl 999 0) c7Analysis)) :=
  ⟨by decide, rfl⟩

/-- C7 as amended: verify_property_visually performs no latitude or
longitude range validation — for EVERY integer coordinate pair, in range or
not, the operation proceeds to imagery retrieval and succeeds whenever the
imagery and primary provider respond validly; and the imagery step precedes
every category check, so with imagery misconfigured the operation fails
with the image-retrieval error for every lead type, valid or not. -/
theorem c7_no_range_validation :
    (∀ (env : VisionEnv) (lat lon : Int) (a : VisualAnalysis),
      env.googleMapsApiKey = true → env.staticMapRequest = .ok () →
      env.openaiApiKey = true → env.openaiResponse = .ok (some a) →
      parseAnalysisResponse (some a) "PoolLeadGen" = .ok a →
      verify_property_visually env lat lon "PoolLeadGen" =
        .ok (mkValidationResult "PoolLeadGen" (staticMapUrl lat lon) a)) ∧
    (∀ (env : VisionEnv) (lat lon : Int) (leadType : String),
      env.googleMapsApiKey = false →
      verify_property_visually env lat lon leadType =
        .error ("Visual property verification failed: "
          ++ "Failed to fetch satellite image: GOOGLE_MAPS_API_KEY is not configured")) := by
  constructor
  · intro env lat lon a hkey hmap hoai horesp hparse
    have himg : getGoogleMapsStaticImage env lat lon = .ok (staticMapUrl lat lon) := by
      simp [getGoogleMapsStaticImage, hkey, hmap]
    have hurl : sTruthy (some (staticMapUrl lat lon)) = true := by
      simp [sTruthy, staticMapUrl_ne_empty lat lon]
    have hprim : openAiAttempt env (some (staticMapUrl lat lon)) "PoolLeadGen" = .ok a := by
      simp [openAiAttempt, hoai, hurl, horesp, hparse]
    have hchain : analyzePropertyWithLLM env (some (staticMapUrl lat lon)) "PoolLeadGen"
        = .ok a := by
      simp [analyzePropertyWithLLM, hprim]
    simp [verify_property_visually, himg, hchain]
  · intro env lat lon leadType hkey
    simp [verify_property_visually, getGoogleMapsStaticImage, hkey]

/-- C7 witness: the amended theorem instantiated at the counterexample
environment with the out-of-range latitude 999. -/
theorem c7_witness :
    verify_property_visually c7Env 999 0 "PoolLeadGen" =
      .ok (mkValidationResult "PoolLeadGen" (staticMapUrl 999 0) c7Analysis) :=
  c7_no_range_validation.1 c7Env 999 0 c7Analysis rfl rfl rfl rfl rfl

/-- C3 counterexample: the band list has 8 bands, not 4, and with a fetch
target of 25 (requestedLeads 10 plus the 15 buffer) the claim allows at
most ceil(25/20) = 2 leading bands, yet when every band yields one unique
candidate the search queries all 8 bands: the result has 8 candidates and
includes the probe of the last band ($2,000,001-$5,000,000). -/
theorem c3_price_bands_cex :
    PRICE_RANGES.length = 8 ∧
    getBufferSize 10 = 25 ∧
    (25 + 20 - 1) / 20 = 2 ∧
    (searchAcrossPriceRanges c3Search 25).length = 8 ∧
    bandProbe ⟨2000001, 5000000⟩ ∈ searchAcrossPriceRanges c3Search 25 := by
  refine ⟨rfl, rfl, rfl, rfl, ?_⟩
  decide

/-- Helper: the inner dedup-append loop never grows the accumulator past
the fetch target (it breaks as soon as the target is reached). -/
theorem collectUnique_length_le (props : List Property) (acc : List Property)
    (seen : List String) (tn : Nat) (h : acc.length < tn) :
    (collectUnique props acc seen tn).1.length ≤ tn := by
  induction props generalizing acc seen with
  | nil => simpa [collectUnique] using Nat.le_of_lt h
  | cons p rest ih =>
    by_cases hc : p.id ∈ seen
    · simpa [collectUnique, hc] using ih acc seen h
    · by_cases hfull : tn ≤ acc.length + 1
      · simp [collectUnique, hc, hfull]
        omega
      · have h2 : (acc ++ [p]).length < tn := by
          simp
          omega
        simpa [collectUnique, hc, hfull] using ih (acc ++ [p]) (seen ++ [p.id]) h2

/-- Helper: the band loop preserves the fetch-target bound on the
accumulated candidate list. -/
theorem searchRanges_length_le (ranges : List PriceRange)
    (f : PriceRange → Except String (Option (List Property)))
    (tn : Nat) (acc : List Property) (seen : List String)
    (h : acc.length ≤ tn) :
    (searchRanges ranges f tn acc seen).length ≤ tn := by
  induction ranges generalizing acc seen with
  | nil => simpa [searchRanges] using h
  | cons r rest ih =>
    by_cases hfull : tn ≤ acc.length
    · simpa [searchRanges, hfull] using h
    · have hlt : acc.length < tn := Nat.lt_of_not_le hfull
      cases hr : f r with
      | error e =>
        simpa [searchRanges, hfull, hr] using ih acc seen h
      | ok ob =>
        cases ob with
        | none => simpa [searchRanges, hfull, hr] using ih acc seen h
        | some props =>
          simp only [searchRanges, hr, if_neg hfull]
          exact ih _ _ (collectUnique_length_le props acc seen tn hlt)

/-- C3 as amended: the candidate search iterates the fixed ascending list
of EIGHT price bands ($0-100k, $100,001-300k, $300,001-500k,
$500,001-750k, $750,001-1M, $1,000,001-1.5M, $1,500,001-2M, $2,000,001-5M)
in order with no band-count cap derived from the fetch target
(requestedLeads + 15); it stops early as soon as the deduplicated result
count reaches the fetch target, and never accumulates more than the fetch
target. -/
theorem c3_band_scan :
    (PRICE_RANGES =
      [⟨0, 100000⟩, ⟨100001, 300000⟩, ⟨300001, 500000⟩, ⟨500001, 750000⟩,
       ⟨750001, 1000000⟩, ⟨1000001, 1500000⟩, ⟨1500001, 2000000⟩,
       ⟨2000001, 5000000⟩]) ∧
    (∀ requestedLeads, getBufferSize requestedLeads = requestedLeads + 15) ∧
    (∀ ranges f tn acc seen, tn ≤ acc.length →
       searchRanges ranges f tn acc seen = acc) ∧
    (∀ f tn, (searchAcrossPriceRanges f tn).length ≤ tn) := by
  refine ⟨rfl, fun _ => rfl, ?_, ?_⟩
  · intro ranges f tn acc seen h
    cases ranges with
    | nil => rfl
    | cons r rest => simp [searchRanges, h]
  · intro f tn
    exact searchRanges_length_le PRICE_RANGES f tn [] [] (by simp)

/-- C3 witness: the early-stop clause of the amended theorem at a concrete
instance — with the target already met, no band is queried and the
accumulator is returned unchanged. -/
theorem c3_witness :
    searchRanges PRICE_RANGES c3Search 0 [] [] = [] :=
  c3_band_scan.2.2.1 PRICE_RANGES c3Search 0 [] [] (Nat.zero_le _)

/-- C8: the cache round-trip — a set that stores a validation record under
any key and ttl reports success, and an immediate get of the same key (no
intervening set, invalidate, clear or clock advance) returns a value equal
to the stored record. -/
theorem c8_cache_roundtrip {α : Type} (st : CacheState α) (key : String)
    (record : α) (ttl now : Nat) :
    (cacheSet st key record (some ttl) now).1 = true ∧
    cacheGet (cacheSet st key record (some ttl) now).2 key now = some record := by
  refine ⟨rfl, ?_⟩
  simp only [cacheSet, cacheGet, Option.getD_some, List.find?_cons]
  by_cases h0 : ttl = 0
  · simp [h0]
  · have hlt : ¬(now + ttl < now) := by omega
    simp [h0, hlt]

/-- C8 witness: a concrete round-trip — the 30-minute ttl used by the batch
service, an empty store, a sample record. -/
theorem c8_witness :
    (cacheSet ({ data := [], stdTTL := 3600 } : CacheState Nat) "visual-validation" 7
        (some 1800) 100).1 = true ∧
    cacheGet (cacheSet ({ data := [], stdTTL := 3600 } : CacheState Nat) "visual-validation" 7
        (some 1800) 100).2 "visual-validation" 100 = some 7 :=
  c8_cache_roundtrip { data := [], stdTTL := 3600 } "visual-validation" 7 1800 100

/-- C10: the validity predicate is a total boolean function (by
construction in this embedding), and it returns false whenever the
property is missing, the visual validation or its analysis field is
missing, or the lead type is neither PoolLeadGen nor BackyardBoost. -/
theorem c10_isValidLead_guards (property : Option Property) (leadType : String)
    (visualValidation : Option VisualValidation) :
    (property = none → isValidLead property leadType visualValidation = false) ∧
    (visualValidation = none → isValidLead property leadType visualValidation = false) ∧
    (∀ vv, visualValidation = some vv → vv.analysis = none →
       isValidLead property leadType visualValidation = false) ∧
    (leadType ≠ "PoolLeadGen" → leadType ≠ "BackyardBoost" →
       isValidLead property leadType visualValidation = false) := by
  refine ⟨?_, ?_, ?_, ?_⟩
  · intro h
    subst h
    cases visualValidation <;> rfl
  · intro h
    subst h
    cases property <;> rfl
  · intro vv h ha
    subst h
    cases property with
    | none => rfl
    | some p => simp [isValidLead, ha]
  · intro h1 h2
    cases property with
    | none => rfl
    | some p =>
      cases visualValidation with
      | none => rfl
      | some vv =>
        cases hA : vv.analysis with
        | none => simp [isValidLead, hA]
        | some an => simp [isValidLead, hA, h1, h2]

/-- C10 witness: both null guards and the lead-type guard at concrete
inputs. -/
theorem c10_witness :
    isValidLead none "PoolLeadGen" none = false :=
  (c10_isValidLead_guards none "PoolLeadGen" none).1 rfl

end UnifiedZillow
